import Mathlib

set_option linter.unusedTactic false
set_option linter.unreachableTactic false

/-!
Verification of the ccflare request-interception pipeline and account
failover orchestrator.

The definitions below are a shallow embedding of the TypeScript sources:

* `src/packages/proxy/src/handlers/system-prompt-interceptor.ts`
  (standalone System-Prompt Interceptor, `_updateLastSeenPrompt`,
  `_updateLastSeenTools`),
* `src/unnamed/part_000` (Agent Interceptor: `interceptAndModifyRequest`,
  `extractSystemPrompt`, and its own inline copy of
  `applySystemPromptInterception`),
* `src/unnamed/part_002` (`InterceptorConfig` stored shape),
* `src/packages/proxy/src/proxy.ts` (`handleProxy` account loop).

JavaScript string primitives (`includes`, `indexOf`, `substring`, global
regex replace of a literal pattern, the `/<env>[\s\S]*?<\/env>/g` scan,
`trim`, `join`) are modelled by structurally recursive functions over
`List Char` so that every definition evaluates inside the kernel.
-/

/-! ## String primitives -/

/-- Index of the first occurrence of `pat` in `l` (JavaScript
`String.prototype.indexOf` on character lists); `some 0` for the empty
pattern, `none` when `pat` does not occur. -/
def firstOccur (pat : List Char) : List Char → Option Nat
  | [] => if pat = [] then some 0 else none
  | c :: cs =>
      if pat.isPrefixOf (c :: cs) then some 0
      else (firstOccur pat cs).map (· + 1)

/-- JavaScript `s.includes(pat)`: true when `pat` occurs in `s`
(always true for the empty pattern). -/
def containsStr (s pat : String) : Bool :=
  pat.data.isEmpty || (firstOccur pat.data s.data).isSome

/-- Fuel-driven worker for `replaceAll`: replaces every left-to-right
non-overlapping occurrence of `pat` by `rep`, never rescanning the
replacement text (JavaScript `s.replace(/pat/g, rep)` for a literal
pattern). The fuel is an upper bound on the input length. -/
def replaceAllAux (pat rep : List Char) : Nat → List Char → List Char
  | _, [] => []
  | 0, l => l
  | fuel + 1, c :: cs =>
      if pat ≠ [] ∧ pat.isPrefixOf (c :: cs) then
        rep ++ replaceAllAux pat rep fuel ((c :: cs).drop pat.length)
      else
        c :: replaceAllAux pat rep fuel cs

/-- JavaScript global replacement of the literal pattern `pat` by `rep`
inside `s`. -/
def replaceAll (s pat rep : String) : String :=
  ⟨replaceAllAux pat.data rep.data s.data.length s.data⟩

/-- JavaScript `Array.prototype.join(sep)` on a list of strings. -/
def joinWith (sep : String) : List String → String
  | [] => ""
  | [s] => s
  | s :: rest => s ++ sep ++ joinWith sep rest

/-- JavaScript `String.prototype.trim` (whitespace stripped from both
ends). -/
def trimStr (s : String) : String :=
  ⟨((s.data.dropWhile Char.isWhitespace).reverse.dropWhile
      Char.isWhitespace).reverse⟩

/-- The git-status extraction of the System-Prompt Interceptor: the
substring of `s` from the first occurrence of the literal marker
`gitStatus:` through the end of the string, or `""` when the marker is
absent (source lines 170-179 of the standalone interceptor). -/
def gitStatusOf (s : String) : String :=
  match firstOccur "gitStatus:".data s.data with
  | some i => ⟨s.data.drop i⟩
  | none => ""

/-- Opening tag searched by the `/<env>[\s\S]*?<\/env>/g` regex. -/
def envOpenTag : List Char := "<env>".data

/-- Closing tag searched by the `/<env>[\s\S]*?<\/env>/g` regex. -/
def envCloseTag : List Char := "</env>".data

/-- Fuel-driven scan for the matches of `/<env>[\s\S]*?<\/env>/g`: each
match runs from an occurrence of `<env>` to the first `</env>` after it
(lazy quantifier), and scanning resumes after the match. Matches include
both tags, exactly as `String.prototype.match` returns full matches. -/
def extractEnvAux : Nat → List Char → List (List Char)
  | 0, _ => []
  | fuel + 1, l =>
      match firstOccur envOpenTag l with
      | none => []
      | some i =>
          let rest := l.drop (i + 5)
          match firstOccur envCloseTag rest with
          | none => []
          | some j =>
              ((l.drop i).take (5 + j + 6)) ::
                extractEnvAux fuel (rest.drop (j + 6))

/-- All matches of `/<env>[\s\S]*?<\/env>/g` in `s`, in order. -/
def extractEnvBlocks (s : String) : List String :=
  (extractEnvAux (s.data.length + 1) s.data).map (fun l => ⟨l⟩)

/-- The env block passed to the template: empty when no `<env>` block is
found, the single match when there is one, and the matches joined by a
newline when there are several (standalone interceptor lines 152-166). -/
def envBlockOf (s : String) : String :=
  match extractEnvBlocks s with
  | [] => ""
  | [b] => b
  | bs => joinWith "\n" bs

/-! ## Request data model

Shapes follow the TypeScript interfaces `SystemMessage`, `Tool`,
`Message`, `MessageContent` and `RequestBody`. Optional fields become
`Option`; a `system` array entry that is not an object with a string
`text` field (so `isSystemMessageWithText` rejects it) is modelled by the
`SysItem.raw` constructor. -/

/-- TypeScript `SystemMessage`: `{type, text, cache_control?}`. The
`cache_control` payload is kept as its `type` string. -/
structure SystemMessage where
  type : String
  text : String
  cache_control : Option String := none
deriving DecidableEq

/-- An entry of a structured `system` array: either a well-formed
`SystemMessage` or any other JSON value (`raw`), which the
`isSystemMessageWithText` type guard rejects. -/
inductive SysItem where
  | msg (m : SystemMessage)
  | raw (s : String)
deriving DecidableEq

/-- The root-level `system` field: a plain string or an array of
entries. -/
inductive SystemField where
  | str (s : String)
  | blocks (items : List SysItem)
deriving DecidableEq

/-- TypeScript `MessageContent`: `{type?, text?}`. -/
structure ContentItem where
  type : Option String := none
  text : Option String := none
deriving DecidableEq

/-- Content of a chat message: a plain string or an array of content
items. -/
inductive MsgContent where
  | str (s : String)
  | arr (items : List ContentItem)
deriving DecidableEq

/-- TypeScript `Message`: `{role?, content?}`. -/
structure Message where
  role : Option String := none
  content : Option MsgContent := none
deriving DecidableEq

/-- TypeScript `Tool`: `{type, name, description?, input_schema?}`. The
nested `input_schema` object is kept as its raw serialized JSON text. -/
structure Tool where
  type : String
  name : String
  description : Option String := none
  input_schema : Option String := none
deriving DecidableEq

/-- TypeScript `RequestBody`:
`{messages?, model?, system?, tools?}`. -/
structure RequestBody where
  messages : Option (List Message) := none
  model : Option String := none
  system : Option SystemField := none
  tools : Option (List Tool) := none
deriving DecidableEq

/-- A buffered request body: either bytes that decode to a `RequestBody`
or bytes that are not valid JSON (on which `JSON.parse` throws). -/
inductive Buffer where
  | valid (b : RequestBody)
  | invalid (s : String)
deriving DecidableEq

/-- JSON decoding of a buffer; `none` models a `JSON.parse` throw. -/
def decodeBuffer : Buffer → Option RequestBody
  | .valid b => some b
  | .invalid _ => none

/-- Type guard `isSystemMessageWithText`: accepts exactly the entries
that are objects carrying a string `text` field. -/
def isSystemMessageWithText : SysItem → Bool
  | .msg _ => true
  | .raw _ => false

/-! ## Interceptor configuration -/

/-- TypeScript `InterceptorConfig` (src/unnamed/part_002 lines 3-7): the
shape stored in the `interceptors` table. -/
structure InterceptorConfig where
  targetPrompt : String
  replacementPrompt : String
  toolsEnabled : Bool
deriving DecidableEq

/-- The parsed `config` JSON object as the two interceptor copies read
it: each of them destructures the fields it expects, so every field is
optional at this level (`JSON.parse` gives no typing guarantees). -/
structure InterceptorConfigData where
  targetPrompt : Option String := none
  replacementPrompt : Option String := none
  promptTemplate : Option String := none
  toolsEnabled : Option Bool := none
deriving DecidableEq

/-- Result of `dbOps.getInterceptorConfig`:
`{isEnabled, config}`. -/
structure InterceptorRecord where
  isEnabled : Bool
  config : InterceptorConfigData
deriving DecidableEq

/-- View of a stored `InterceptorConfig` as the dynamic object the
interceptors read: the three stored fields are present and
`promptTemplate` is absent. -/
def InterceptorConfig.toData (c : InterceptorConfig) : InterceptorConfigData :=
  { targetPrompt := some c.targetPrompt
    replacementPrompt := some c.replacementPrompt
    promptTemplate := none
    toolsEnabled := some c.toolsEnabled }

/-- Main-agent signature tested against `system[0].text`. -/
def mainAgentSignature : String :=
  "You are Claude Code, Anthropic's official CLI for Claude."

/-- Sub-agent signature tested against `system[0].text`. -/
def subAgentSignature : String :=
  "You are an agent for Claude Code"

/-- Placeholder token `{{env_block}}` recognized in templates. -/
def envBlockToken : String := "\x7b\x7benv_block\x7d\x7d"

/-- Placeholder token `{{git_status_block}}` recognized in templates. -/
def gitStatusToken : String := "\x7b\x7bgit_status_block\x7d\x7d"

/-! ## Standalone System-Prompt Interceptor

Embedding of `applySystemPromptInterception` from
`src/packages/proxy/src/handlers/system-prompt-interceptor.ts`
(lines 62-243). `none` is the unchanged signal (the source returns
`null`); a `some` result is the body that gets re-encoded to bytes. The
deferred `setImmediate` KV writes are side effects on the KV store and
are modelled separately by `updateLastSeenPrompt` / `updateLastSeenTools`
below. -/

/-- Core of the standalone interceptor, acting on the decoded body. The
stages mirror the source exactly: config enabled check, structured
`system` check, `system[0]` type guard, main-agent and sub-agent
signature classification, `system[1]` type guard, env and git-status
extraction, `replacementPrompt` validation, double placeholder
substitution, `system[1].text` overwrite, tools removal when
`toolsEnabled` is falsy, and an unconditional re-encode at the end. -/
def applySystemPromptInterceptionBody
    (body : RequestBody) (rec? : Option InterceptorRecord) :
    Option RequestBody :=
  match rec? with
  | none => none
  | some rec =>
      if !rec.isEnabled then none
      else
        match body.system with
        | some (.blocks items) =>
            match (items[0]? : Option SysItem) with
            | some (.msg first) =>
                if containsStr first.text mainAgentSignature &&
                    !containsStr first.text subAgentSignature then
                  match (items[1]? : Option SysItem) with
                  | some (.msg second) =>
                      let envBlock := envBlockOf second.text
                      let gitStatusBlock := gitStatusOf second.text
                      match rec.config.replacementPrompt with
                      | some rp =>
                          if rp = "" then none
                          else
                            let newPrompt :=
                              replaceAll
                                (replaceAll rp envBlockToken envBlock)
                                gitStatusToken gitStatusBlock
                            let body1 :=
                              { body with
                                system := some (.blocks
                                  (items.set 1
                                    (.msg { second with text := newPrompt }))) }
                            if !(rec.config.toolsEnabled = some true) &&
                                !(body1.tools = none) then
                              some { body1 with tools := none }
                            else
                              some body1
                      | none => none
                  | _ => none
                else none
            | _ => none
        | _ => none

/-- Buffer-level standalone interceptor: absent buffer and `JSON.parse`
failure both yield the unchanged signal (the source catches the parse
exception and returns `null`). -/
def applySystemPromptInterception
    (buf? : Option Buffer) (rec? : Option InterceptorRecord) :
    Option Buffer :=
  match buf? with
  | none => none
  | some buf =>
      match decodeBuffer buf with
      | none => none
      | some body =>
          (applySystemPromptInterceptionBody body rec?).map .valid

/-- Holds exactly when the standalone interceptor passes all of its
guards: a configuration is present and enabled, `system` is an array
whose first entry is a well-formed message containing the main-agent
signature but not the sub-agent signature, the second entry is a
well-formed message, and `replacementPrompt` is a non-empty string. -/
def standaloneEligible
    (body : RequestBody) (rec? : Option InterceptorRecord) : Bool :=
  match rec? with
  | none => false
  | some rec =>
      rec.isEnabled &&
      (match body.system with
       | some (.blocks items) =>
           (match (items[0]? : Option SysItem) with
            | some (.msg first) =>
                containsStr first.text mainAgentSignature &&
                !containsStr first.text subAgentSignature
            | _ => false) &&
           (match (items[1]? : Option SysItem) with
            | some (.msg _) => true
            | _ => false) &&
           (match rec.config.replacementPrompt with
            | some rp => !(rp = "")
            | none => false)
       | _ => false)

/-- Main-agent guard on a structured `system` array: the first entry is
a well-formed message whose text contains the main-agent signature and
does not contain the sub-agent signature. -/
def mainAgentOnly (items : List SysItem) : Bool :=
  match (items[0]? : Option SysItem) with
  | some (.msg first) =>
      containsStr first.text mainAgentSignature &&
      !containsStr first.text subAgentSignature
  | _ => false

/-! ## Last-seen key-value writes -/

/-- The key-value store behind `getSystemKV` / `setSystemKV`, as an
association list. -/
def getSystemKV (kv : List (String × String)) (key : String) :
    Option String :=
  (kv.find? (fun p => p.1 = key)).map (fun p => p.2)

/-- Sets `key` to `value`, replacing an existing entry or appending a
new one. -/
def setSystemKV (kv : List (String × String)) (key value : String) :
    List (String × String) :=
  if (kv.find? (fun p => p.1 = key)).isSome then
    kv.map (fun p => if p.1 = key then (key, value) else p)
  else
    kv ++ [(key, value)]

/-- Result of a deferred last-seen write: the store afterwards, and
whether `setSystemKV` was invoked. -/
structure KVWriteResult where
  store : List (String × String)
  didWrite : Bool
deriving DecidableEq

/-- Embedding of `_updateLastSeenPrompt` (standalone interceptor lines
253-271): read the stored value and write the new prompt only when it
differs (`prompt !== lastSeen`, where a missing entry is `null`). -/
def updateLastSeenPrompt (prompt : String)
    (kv : List (String × String)) : KVWriteResult :=
  let lastSeen := getSystemKV kv "last_seen_system_prompt"
  if !(some prompt = lastSeen) then
    ⟨setSystemKV kv "last_seen_system_prompt" prompt, true⟩
  else
    ⟨kv, false⟩

/-- JSON string escaping used when serializing tools (`JSON.stringify`);
covers the escape-worthy characters that these fields can carry. -/
def escapeJsonString (s : String) : String :=
  ⟨s.data.foldr
    (fun c acc =>
      match c with
      | '"' => '\\' :: '"' :: acc
      | '\\' => '\\' :: '\\' :: acc
      | '\n' => '\\' :: 'n' :: acc
      | '\t' => '\\' :: 't' :: acc
      | '\r' => '\\' :: 'r' :: acc
      | c => c :: acc)
    []⟩

/-- Serialization of one tool, fields in interface order; the raw
`input_schema` fragment is spliced back verbatim. -/
def toolJson (t : Tool) : String :=
  "\x7b\"type\":\"" ++ escapeJsonString t.type ++
  "\",\"name\":\"" ++ escapeJsonString t.name ++ "\"" ++
  (match t.description with
   | some d => ",\"description\":\"" ++ escapeJsonString d ++ "\""
   | none => "") ++
  (match t.input_schema with
   | some sch => ",\"input_schema\":" ++ sch
   | none => "") ++
  "\x7d"

/-- `JSON.stringify(tools)`: the serialized tools array stored under
`last_seen_tools`. -/
def toolsJson (tools : List Tool) : String :=
  "[" ++ joinWith "," (tools.map toolJson) ++ "]"

/-- Embedding of `_updateLastSeenTools` (standalone interceptor lines
281-299): serialize the tools, read the stored value, and write only
when it differs. -/
def updateLastSeenTools (tools : List Tool)
    (kv : List (String × String)) : KVWriteResult :=
  let toolsText := toolsJson tools
  let lastSeen := getSystemKV kv "last_seen_tools"
  if !(some toolsText = lastSeen) then
    ⟨setSystemKV kv "last_seen_tools" toolsText, true⟩
  else
    ⟨kv, false⟩

/-! ## Agent Interceptor

Embedding of `src/unnamed/part_000`: `extractSystemPrompt`,
the module's own inline `applySystemPromptInterception`, and
`interceptAndModifyRequest`. The filesystem side effect of registering
discovered agent workspaces changes no field of the returned result and
is not modelled; the agent list that `agentRegistry.getAgents()` returns
is a parameter. -/

/-- TypeScript `Agent`: `{id, name, systemPrompt, model}`. -/
structure Agent where
  id : String
  name : String
  systemPrompt : String
  model : String
deriving DecidableEq

/-- TypeScript `AgentInterceptResult`: the two trailing flags are
optional and are absent (`none`) on the branches that do not set them. -/
structure AgentInterceptResult where
  modifiedBody : Option Buffer
  agentUsed : Option String
  originalModel : Option String
  appliedModel : Option String
  systemPromptModified : Option Bool := none
  toolsRemoved : Option Bool := none
deriving DecidableEq

/-- Texts collected from a structured `system` array by
`extractSystemPrompt`: entries whose `type` is `"text"` and whose `text`
is a non-empty string. -/
def sysItemTexts (items : List SysItem) : List String :=
  items.filterMap
    (fun it =>
      match it with
      | .msg m => if m.type = "text" ∧ ¬(m.text = "") then some m.text else none
      | .raw _ => none)

/-- Texts collected from a message-content array: items whose `type` is
`"text"` and whose `text` is a non-empty string (the `!!item.text`
truthiness test). -/
def contentTexts (items : List ContentItem) : List String :=
  items.filterMap
    (fun it =>
      match it.type, it.text with
      | some "text", some t => if t = "" then none else some t
      | _, _ => none)

/-- Part (a) of the combined system prompt: the root-level `system`
field. A string is included when truthy (non-empty); an array
contributes the newline-join of its text blocks when that join is
non-empty. -/
def rootSystemPart (body : RequestBody) : List String :=
  match body.system with
  | some (.str s) => if s = "" then [] else [s]
  | some (.blocks items) =>
      let t := joinWith "\n" (sysItemTexts items)
      if t = "" then [] else [t]
  | none => []

/-- Part (b) of the combined system prompt: the content of the first
message whose role is `"system"`. String content is included even when
empty; array content contributes the newline-join of its text items when
non-empty. -/
def firstSystemMessagePart (msgs? : Option (List Message)) : List String :=
  match msgs? with
  | none => []
  | some msgs =>
      match msgs.find? (fun m => m.role = some "system") with
      | some m =>
          match m.content with
          | some (.str c) => [c]
          | some (.arr items) =>
              let t := joinWith "\n" (contentTexts items)
              if t = "" then [] else [t]
          | none => []
      | none => []

/-- Part (c) of the combined system prompt: the content of the first
message whose role is `"user"`, included only when its text contains
both literal markers `Contents of` and `CLAUDE.md`. -/
def firstUserMessagePart (msgs? : Option (List Message)) : List String :=
  match msgs? with
  | none => []
  | some msgs =>
      match msgs.find? (fun m => m.role = some "user") with
      | some m =>
          match m.content with
          | some (.arr items) =>
              let t := joinWith "\n" (contentTexts items)
              if containsStr t "Contents of" && containsStr t "CLAUDE.md" then
                [t]
              else []
          | some (.str c) =>
              if containsStr c "Contents of" && containsStr c "CLAUDE.md" then
                [c]
              else []
          | none => []
      | none => []

/-- Embedding of `extractSystemPrompt` (src/unnamed/part_000 lines
266-386): pushes the root `system` content, the first system-role
message's content, and the first user-role message's content when it
carries both `Contents of` and `CLAUDE.md`, then joins the collected
pieces with blank lines; `none` when nothing was collected. -/
def extractSystemPrompt (body : RequestBody) : Option String :=
  let fromRoot : List String :=
    match body.system with
    | some (.str s) => if s = "" then [] else [s]
    | some (.blocks items) =>
        let t := joinWith "\n" (sysItemTexts items)
        if t = "" then [] else [t]
    | none => []
  let fromMessages : List String :=
    match body.messages with
    | none => []
    | some msgs =>
        let sysPart :=
          match msgs.find? (fun m => m.role = some "system") with
          | some m =>
              match m.content with
              | some (.str c) => [c]
              | some (.arr items) =>
                  let t := joinWith "\n" (contentTexts items)
                  if t = "" then [] else [t]
              | none => []
          | none => []
        let userPart :=
          match msgs.find? (fun m => m.role = some "user") with
          | some m =>
              match m.content with
              | some (.arr items) =>
                  let t := joinWith "\n" (contentTexts items)
                  if containsStr t "Contents of" &&
                      containsStr t "CLAUDE.md" then
                    [t]
                  else []
              | some (.str c) =>
                  if containsStr c "Contents of" &&
                      containsStr c "CLAUDE.md" then
                    [c]
                  else []
              | none => []
          | none => []
        sysPart ++ userPart
  match fromRoot ++ fromMessages with
  | [] => none
  | parts => some (joinWith "\n\n" parts)

/-- Reading of `extractSystemPrompt` claimed by the specification: the
root `system` content together with the text of every message whose role
is `"system"` and the text of every message whose role is `"user"` that
carries both markers. Written from the claim's words, to be compared
with the source-derived `extractSystemPrompt`. -/
def extractSystemPromptClaimed (body : RequestBody) : Option String :=
  let fromRoot := rootSystemPart body
  let fromMessages : List String :=
    match body.messages with
    | none => []
    | some msgs =>
        let sysParts :=
          (msgs.filter (fun m => m.role = some "system")).flatMap
            (fun m =>
              match m.content with
              | some (.str c) => [c]
              | some (.arr items) =>
                  let t := joinWith "\n" (contentTexts items)
                  if t = "" then [] else [t]
              | none => [])
        let userParts :=
          (msgs.filter (fun m => m.role = some "user")).flatMap
            (fun m =>
              match m.content with
              | some (.arr items) =>
                  let t := joinWith "\n" (contentTexts items)
                  if containsStr t "Contents of" &&
                      containsStr t "CLAUDE.md" then
                    [t]
                  else []
              | some (.str c) =>
                  if containsStr c "Contents of" &&
                      containsStr c "CLAUDE.md" then
                    [c]
                  else []
              | none => [])
        sysParts ++ userParts
  match fromRoot ++ fromMessages with
  | [] => none
  | parts => some (joinWith "\n\n" parts)

/-- Embedding of the Agent Interceptor's own inline
`applySystemPromptInterception` (src/unnamed/part_000 lines 468-610),
acting on the decoded body; returns the (possibly updated) body together
with the `modified` and `toolsRemoved` flags. Unlike the standalone
interceptor of §4.1 it reads the `promptTemplate` configuration field
and substitutes only the `\x7b\x7benv_block\x7d\x7d` token. -/
def agentApplySystemPromptInterception
    (body : RequestBody) (rec? : Option InterceptorRecord) :
    RequestBody × Bool × Bool :=
  match rec? with
  | none => (body, false, false)
  | some rec =>
      if !rec.isEnabled then (body, false, false)
      else
        match body.system with
        | some (.blocks items) =>
            match (items[0]? : Option SysItem) with
            | some (.msg first) =>
                if containsStr first.text mainAgentSignature &&
                    !containsStr first.text subAgentSignature then
                  match (items[1]? : Option SysItem) with
                  | some (.msg second) =>
                      let envBlock := envBlockOf second.text
                      match rec.config.promptTemplate with
                      | some pt =>
                          if pt = "" then (body, false, false)
                          else
                            let newPrompt := replaceAll pt envBlockToken envBlock
                            let body1 :=
                              { body with
                                system := some (.blocks
                                  (items.set 1
                                    (.msg { second with text := newPrompt }))) }
                            if !(rec.config.toolsEnabled = some true) &&
                                !(body1.tools = none) then
                              ({ body1 with tools := none }, true, true)
                            else
                              (body1, true, false)
                      | none => (body, false, false)
                  | _ => (body, false, false)
                else (body, false, false)
            | _ => (body, false, false)
        | _ => (body, false, false)

/-- The `requestBody.model || null` capture: an absent or empty model
becomes `null`. -/
def originalModelOf (body : RequestBody) : Option String :=
  match body.model with
  | some m => if m = "" then none else some m
  | none => none

/-- The `preference?.model || detectedAgent.model` resolution: a present
preference wins unless its model is falsy (empty), in which case the
agent's own default is used. -/
def resolvePreferredModel (preference : Option String) (agent : Agent) :
    String :=
  match preference with
  | some m => if m = "" then agent.model else m
  | none => agent.model

/-- Embedding of `interceptAndModifyRequest` (src/unnamed/part_000 lines
26-221). `agents` is the list returned by `agentRegistry.getAgents()`
and `pref` is `dbOps.getAgentPreference` restricted to the model field.
The top-level catch maps any internal exception (here: a `JSON.parse`
failure) to the original, unmodified buffer with null metadata. -/
def interceptAndModifyRequest
    (buf? : Option Buffer) (agents : List Agent)
    (pref : String → Option String) (rec? : Option InterceptorRecord) :
    AgentInterceptResult :=
  match buf? with
  | none => ⟨none, none, none, none, none, none⟩
  | some buf =>
      match decodeBuffer buf with
      | none => ⟨some buf, none, none, none, none, none⟩
      | some body =>
          let originalModel := originalModelOf body
          match extractSystemPrompt body with
          | none => ⟨some buf, none, originalModel, originalModel, none, none⟩
          | some systemPrompt =>
              if systemPrompt = "" then
                ⟨some buf, none, originalModel, originalModel, none, none⟩
              else
                match agents.find?
                    (fun a => containsStr systemPrompt (trimStr a.systemPrompt))
                    with
                | none =>
                    let res := agentApplySystemPromptInterception body rec?
                    if res.2.1 || res.2.2 then
                      ⟨some (.valid res.1), none, originalModel, originalModel,
                        some res.2.1, some res.2.2⟩
                    else
                      ⟨some buf, none, originalModel, originalModel, none, none⟩
                | some detectedAgent =>
                    let preferredModel :=
                      resolvePreferredModel (pref detectedAgent.id) detectedAgent
                    if some preferredModel = originalModel then
                      let res := agentApplySystemPromptInterception body rec?
                      if res.2.1 || res.2.2 then
                        ⟨some (.valid res.1), some detectedAgent.id,
                          originalModel, originalModel,
                          some res.2.1, some res.2.2⟩
                      else
                        ⟨some buf, some detectedAgent.id, originalModel,
                          originalModel, none, none⟩
                    else
                      let body1 := { body with model := some preferredModel }
                      let res := agentApplySystemPromptInterception body1 rec?
                      ⟨some (.valid res.1), some detectedAgent.id,
                        originalModel, some preferredModel,
                        some res.2.1, some res.2.2⟩

/-! ## Proxy Orchestrator account loop

Embedding of `handleProxy` steps 6-10 (src/packages/proxy/src/proxy.ts
lines 143-182): the empty-list unauthenticated fallback, the sequential
account loop that returns the first response, and the final
service-unavailable error carrying the attempted count and the provider
name. `attempt` abstracts `proxyWithAccount`, which returns a response
or `null` when the attempt failed and was swallowed. -/

/-- A candidate account returned by the selection strategy. -/
structure UpstreamAccount where
  name : String
deriving DecidableEq

/-- An upstream response. -/
structure ProxyResponse where
  body : String
deriving DecidableEq

/-- Caller-visible orchestrator failure: `ServiceUnavailableError`,
whose message embeds the number of accounts attempted, and which carries
the provider name. -/
inductive ProxyError where
  | serviceUnavailable (attemptedCount : Nat) (providerName : String)
deriving DecidableEq

/-- The account loop: attempts accounts in list order, stopping at the
first attempt that returns a response; also counts the attempts made. -/
def tryAccountsLoop (attempt : UpstreamAccount → Option ProxyResponse) :
    List UpstreamAccount → Option ProxyResponse × Nat
  | [] => (none, 0)
  | a :: rest =>
      match attempt a with
      | some r => (some r, 1)
      | none =>
          let res := tryAccountsLoop attempt rest
          (res.1, res.2 + 1)

/-- Steps 6-10 of `handleProxy`: with no accounts, forward once
unauthenticated and return that response; otherwise run the account
loop, return its first response, and when every account was tried
without a response, raise `ServiceUnavailableError` with the count of
accounts and the provider name. -/
def handleProxyAccounts (accounts : List UpstreamAccount)
    (attempt : UpstreamAccount → Option ProxyResponse)
    (unauthenticated : ProxyResponse) (providerName : String) :
    Except ProxyError ProxyResponse :=
  if accounts.isEmpty then
    .ok unauthenticated
  else
    match (tryAccountsLoop attempt accounts).1 with
    | some r => .ok r
    | none => .error (.serviceUnavailable accounts.length providerName)

/-! ## Helper lemmas -/

/-- The substituted template (standalone interceptor lines 204-205):
every occurrence of the env-block token replaced by the extracted env
block, then every occurrence of the git-status token replaced by the
extracted git-status block of the original prompt `orig`. -/
def newPromptOf (rp orig : String) : String :=
  replaceAll (replaceAll rp envBlockToken (envBlockOf orig))
    gitStatusToken (gitStatusOf orig)

/-- The body produced by the standalone interceptor once every guard has
passed: `system[1].text` is overwritten with the doubly-substituted
template, and the `tools` field is dropped when `toolsEnabled` is falsy
and tools are present. -/
def interceptTransform (body : RequestBody) (items : List SysItem)
    (second : SystemMessage) (rp : String) (toolsEnabled : Option Bool) :
    RequestBody :=
  let newPrompt := newPromptOf rp second.text
  let body1 :=
    { body with
      system := some (.blocks
        (items.set 1 (.msg { second with text := newPrompt }))) }
  if !(toolsEnabled = some true) && !(body1.tools = none) then
    { body1 with tools := none }
  else
    body1

theorem interceptBody_some_inv {body : RequestBody}
    {rec? : Option InterceptorRecord} {out : RequestBody}
    (h : applySystemPromptInterceptionBody body rec? = some out) :
    ∃ rec items first second rp,
      rec? = some rec ∧ rec.isEnabled = true ∧
      body.system = some (.blocks items) ∧
      (items[0]? : Option SysItem) = some (.msg first) ∧
      (containsStr first.text mainAgentSignature &&
        !containsStr first.text subAgentSignature) = true ∧
      (items[1]? : Option SysItem) = some (.msg second) ∧
      rec.config.replacementPrompt = some rp ∧ ¬(rp = "") ∧
      out = interceptTransform body items second rp rec.config.toolsEnabled := by
  unfold applySystemPromptInterceptionBody at h
  split at h
  · exact absurd h (by simp)
  next rec =>
    split at h
    · exact absurd h (by simp)
    next hen =>
      split at h
      next items hsys =>
        split at h
        next first h0 =>
          split at h
          next hguard =>
            split at h
            next second h1 =>
              split at h
              next rp hrp =>
                dsimp only at h
                split at h
                · exact absurd h (by simp)
                next hrpne =>
                  refine ⟨rec, items, first, second, rp, rfl, ?_, hsys, h0,
                    hguard, h1, hrp, hrpne, ?_⟩
                  · revert hen; cases rec.isEnabled <;> simp
                  · unfold interceptTransform
                    dsimp only at h ⊢
                    split at h
                    next hcond =>
                      rw [if_pos hcond]
                      exact (Option.some.injEq _ _ ▸ h).symm
                    next hcond =>
                      rw [if_neg hcond]
                      exact (Option.some.injEq _ _ ▸ h).symm
              next hrp =>
                exact absurd h (by simp)
            next h1 =>
              exact absurd h (by simp)
          next hguard =>
            exact absurd h (by simp)
        next h0 =>
          exact absurd h (by simp)
      next hsys =>
        exact absurd h (by simp)

theorem interceptBody_construct {body : RequestBody}
    {rec : InterceptorRecord} {items : List SysItem}
    {first second : SystemMessage} {rp : String}
    (hen : rec.isEnabled = true)
    (hsys : body.system = some (.blocks items))
    (h0 : (items[0]? : Option SysItem) = some (.msg first))
    (hguard : (containsStr first.text mainAgentSignature &&
      !containsStr first.text subAgentSignature) = true)
    (h1 : (items[1]? : Option SysItem) = some (.msg second))
    (hrp : rec.config.replacementPrompt = some rp)
    (hrpne : ¬(rp = "")) :
    applySystemPromptInterceptionBody body (some rec) =
      some (interceptTransform body items second rp rec.config.toolsEnabled) := by
  unfold applySystemPromptInterceptionBody interceptTransform
  simp only [hsys, hen, Bool.not_true, Bool.false_eq_true, if_false, h0,
    hguard, if_true, h1, hrp, if_neg hrpne]
  split <;> rfl

theorem getq_set_self {α : Type} {l : List α} {i : Nat} {x y : α}
    (h : l[i]? = some y) : (l.set i x)[i]? = some x := by
  rw [List.getElem?_set_self', h]; rfl


theorem agentApply_model_eq (body : RequestBody)
    (rec? : Option InterceptorRecord) :
    (agentApplySystemPromptInterception body rec?).1.model = body.model := by
  unfold agentApplySystemPromptInterception
  repeat' (first | rfl | (dsimp only; split) | split)

theorem agentApply_of_no_template {body : RequestBody}
    {rec : InterceptorRecord} (hpt : rec.config.promptTemplate = none) :
    agentApplySystemPromptInterception body (some rec) =
      (body, false, false) := by
  simp only [agentApplySystemPromptInterception, hpt]
  repeat' (first | rfl | (dsimp only; split) | split)

theorem tryAccountsLoop_le (attempt : UpstreamAccount → Option ProxyResponse)
    (accounts : List UpstreamAccount) :
    (tryAccountsLoop attempt accounts).2 ≤ accounts.length := by
  induction accounts with
  | nil => simp [tryAccountsLoop]
  | cons a rest ih =>
      unfold tryAccountsLoop
      cases attempt a <;> simp
      omega

theorem tryAccountsLoop_all_none
    {attempt : UpstreamAccount → Option ProxyResponse}
    {accounts : List UpstreamAccount}
    (h : ∀ a ∈ accounts, attempt a = none) :
    tryAccountsLoop attempt accounts = (none, accounts.length) := by
  induction accounts with
  | nil => rfl
  | cons a rest ih =>
      unfold tryAccountsLoop
      rw [h a (by simp), ih (fun b hb => h b (by simp [hb]))]
      rfl

theorem tryAccountsLoop_first_success
    {attempt : UpstreamAccount → Option ProxyResponse}
    {accounts : List UpstreamAccount} {k : Nat} {a : UpstreamAccount}
    {r : ProxyResponse}
    (hk : accounts[k]? = some a) (hr : attempt a = some r)
    (hbefore : ∀ j, j < k → (accounts[j]?).bind attempt = none) :
    tryAccountsLoop attempt accounts = (some r, k + 1) := by
  induction accounts generalizing k with
  | nil => simp at hk
  | cons x rest ih =>
      cases k with
      | zero =>
          simp at hk
          subst hk
          unfold tryAccountsLoop
          rw [hr]
      | succ k =>
          have hx : attempt x = none := by
            have h0 := hbefore 0 (Nat.succ_pos k)
            simpa using h0
          unfold tryAccountsLoop
          rw [hx]
          have hrest := ih (k := k) (by simpa using hk)
            (fun j hj => by
              have hs := hbefore (j + 1) (by omega)
              simpa using hs)
          rw [hrest]

/-! ## Concrete inputs for witnesses and counterexamples -/

/-- First system block of an eligible main-agent request. -/
def mainFirstBlock : SystemMessage :=
  ⟨"text", "You are Claude Code, Anthropic's official CLI for Claude.", none⟩

/-- Scenario B configuration: enabled, stored shape, template
`"Hi.\n\x7b\x7benv_block\x7d\x7d"` and tools enabled. -/
def recB : InterceptorRecord :=
  { isEnabled := true
    config := (InterceptorConfig.mk "t"
      "Hi.\n\x7b\x7benv_block\x7d\x7d" true).toData }

/-- Second system block of Scenario B, carrying one env block. -/
def secondB : SystemMessage := ⟨"text", "pre <env>X</env> post", none⟩

/-- The Scenario B system array. -/
def itemsB : List SysItem := [.msg mainFirstBlock, .msg secondB]

/-- Scenario B request body. -/
def bodyB : RequestBody := { system := some (.blocks itemsB) }

/-- The body Scenario B produces: `system[1].text` rewritten to
`"Hi.\n<env>X</env>"`. -/
def outB : RequestBody :=
  { system := some (.blocks
      [.msg mainFirstBlock, .msg ⟨"text", "Hi.\n<env>X</env>", none⟩]) }

/-- A stored configuration with tools disabled, used to compare the two
interceptor copies. -/
def rec2 : InterceptorRecord :=
  { isEnabled := true
    config := (InterceptorConfig.mk "t"
      "Hi.\n\x7b\x7benv_block\x7d\x7d" false).toData }

/-- A main-agent body that also carries one tool. -/
def body2 : RequestBody :=
  { system := some (.blocks itemsB)
    tools := some [⟨"custom", "Bash", none, none⟩] }

/-- What the standalone interceptor makes of `body2` under `rec2`: the
prompt is rewritten and the tools are removed. -/
def out2 : RequestBody :=
  { system := some (.blocks
      [.msg mainFirstBlock, .msg ⟨"text", "Hi.\n<env>X</env>", none⟩])
    tools := none }

/-- A request whose first system block carries the sub-agent signature
(a delegated session that must not be rewritten). -/
def itemsSub : List SysItem :=
  [.msg ⟨"text",
    "You are Claude Code, Anthropic's official CLI for Claude. You are an agent for Claude Code, acting on a delegated task.",
    none⟩,
   .msg secondB]

/-- Sub-agent session body. -/
def bodySub : RequestBody := { system := some (.blocks itemsSub) }

/-- Configuration whose template contains no placeholder and equals the
original prompt of `body7`. -/
def rec7 : InterceptorRecord :=
  { isEnabled := true
    config := (InterceptorConfig.mk "t" "P" true).toData }

/-- Eligible body whose `system[1].text` already equals the replacement
prompt, with no tools. -/
def body7 : RequestBody :=
  { system := some (.blocks [.msg mainFirstBlock, .msg ⟨"text", "P", none⟩]) }

/-- Two user messages where only the second carries both `Contents of`
and `CLAUDE.md`. -/
def body6 : RequestBody :=
  { messages := some
      [⟨some "user", some (.str "hello")⟩,
       ⟨some "user", some (.str "Contents of /a/CLAUDE.md is here")⟩] }

/-- Scenario D agent. -/
def agent42 : Agent := ⟨"Agent42", "Agent42", " SIG42 ", "agent-default"⟩

/-- Scenario D preference lookup: `Agent42` prefers `fast-v2`. -/
def pref42 : String → Option String :=
  fun id => if id = "Agent42" then some "fast-v2" else none

/-- Scenario D request body: original model `base-v1`, system prompt
containing `agent42`'s signature. -/
def bodyD : RequestBody :=
  { model := some "base-v1", system := some (.str "prefix SIG42 suffix") }

/-- An agent whose stored preference is the empty string. -/
def agentE : Agent := ⟨"AgentE", "AgentE", "SIGE", "default-model"⟩

/-- Preference lookup returning a present record whose model is the
empty string. -/
def prefEmpty : String → Option String := fun _ => some ""

/-- Request matching `agentE` with original model `base`. -/
def bodyE : RequestBody :=
  { model := some "base", system := some (.str "xx SIGE yy") }

/-- Three accounts for Scenario E. -/
def accA : UpstreamAccount := ⟨"a"⟩

/-- Second Scenario E account. -/
def accB : UpstreamAccount := ⟨"b"⟩

/-- Third Scenario E account. -/
def accC : UpstreamAccount := ⟨"c"⟩

/-- Scenario E attempts: the first two accounts fail, the third returns
a response. -/
def attemptE : UpstreamAccount → Option ProxyResponse :=
  fun a => if a.name = "c" then some ⟨"ok-c"⟩ else none

/-- An attempt function on which every account fails. -/
def attemptNone : UpstreamAccount → Option ProxyResponse := fun _ => none

/-- The unauthenticated forward's response. -/
def respUnauth : ProxyResponse := ⟨"unauth"⟩

/-! ## Claim theorems -/

/-- C1 (counterexample). With an empty ordered account list, every (of
the zero) attempts vacuously yields no response, yet the orchestrator
does not raise the service-unavailable error carrying count 0: it
forwards once unauthenticated and returns that response. -/
theorem c1_empty_list_counterexample :
    handleProxyAccounts [] attemptNone respUnauth "anthropic" =
      .ok respUnauth ∧
    ¬(handleProxyAccounts [] attemptNone respUnauth "anthropic" =
      .error (.serviceUnavailable 0 "anthropic")) := by
  constructor
  · rfl
  · intro h
    simp [handleProxyAccounts] at h

/-- C1 (amended). For every non-empty ordered account list, the
orchestrator attempts accounts sequentially in list order, makes at most
`accounts.length` attempts, returns the response of the first attempt
that yields one after exactly `k + 1` attempts when index `k` is the
first to respond, and raises the service-unavailable error carrying the
account count and the provider name when every account's attempt yields
no response. (The empty list instead takes the unauthenticated forward
path.) -/
theorem c1_account_failover :
    ∀ (accounts : List UpstreamAccount)
      (attempt : UpstreamAccount → Option ProxyResponse)
      (unauth : ProxyResponse) (pname : String),
      ¬(accounts = []) →
      (tryAccountsLoop attempt accounts).2 ≤ accounts.length ∧
      (∀ (k : Nat) (a : UpstreamAccount) (r : ProxyResponse),
        accounts[k]? = some a → attempt a = some r →
        (∀ j, j < k → (accounts[j]?).bind attempt = none) →
        handleProxyAccounts accounts attempt unauth pname = .ok r ∧
        tryAccountsLoop attempt accounts = (some r, k + 1)) ∧
      ((∀ a ∈ accounts, attempt a = none) →
        handleProxyAccounts accounts attempt unauth pname =
          .error (.serviceUnavailable accounts.length pname)) := by
  intro accounts attempt unauth pname hne
  refine ⟨tryAccountsLoop_le attempt accounts, ?_, ?_⟩
  · intro k a r hk hr hbefore
    have hloop := tryAccountsLoop_first_success hk hr hbefore
    refine ⟨?_, hloop⟩
    unfold handleProxyAccounts
    rw [if_neg (by simpa using hne), hloop]
  · intro hall
    have hloop := tryAccountsLoop_all_none hall
    unfold handleProxyAccounts
    rw [if_neg (by simpa using hne), hloop]

/-- C1 (witness). Scenario E: three accounts, the first two attempts
fail, the third succeeds; exactly 3 attempts are made and the third
account's response is returned. -/
theorem c1_account_failover_witness :
    handleProxyAccounts [accA, accB, accC] attemptE respUnauth
      "anthropic" = .ok ⟨"ok-c"⟩ ∧
    tryAccountsLoop attemptE [accA, accB, accC] = (some ⟨"ok-c"⟩, 3) :=
  (c1_account_failover [accA, accB, accC] attemptE respUnauth "anthropic"
    (by decide)).2.1 2 accC ⟨"ok-c"⟩ (by decide) (by decide) (by decide)

/-- C2 (counterexample). On the same main-agent body and the same
stored, enabled configuration (tools disabled, replacement template
`"Hi.\n\x7b\x7benv_block\x7d\x7d"`), the interception inlined in the
Agent Interceptor leaves the body untouched and reports no modification
and no tools removal, while the §4.1 System-Prompt Interceptor rewrites
`system[1].text` and removes the tools array: the two do not produce
the same rewritten text nor the same tools removal. -/
theorem c2_divergence_counterexample :
    agentApplySystemPromptInterception body2 (some rec2) =
      (body2, false, false) ∧
    applySystemPromptInterceptionBody body2 (some rec2) = some out2 ∧
    ¬(out2.system = body2.system) ∧ out2.tools = none ∧
    ¬(body2.tools = none) := by
  refine ⟨?_, by decide, by decide, rfl, by decide⟩
  exact agentApply_of_no_template rfl

/-- C2 (amended). The interception inlined in the Agent Interceptor is
not the §4.1 interceptor: it reads the `promptTemplate` field of the
configuration (not `replacementPrompt`) and substitutes only the
`\x7b\x7benv_block\x7d\x7d` placeholder; since stored configurations
(`InterceptorConfig`) carry no `promptTemplate` field, the agent-stage
interception leaves every request body unchanged, with `modified` and
`toolsRemoved` both false, for every stored configuration. -/
theorem c2_agent_stage_no_op :
    ∀ (body : RequestBody) (en : Bool) (sc : InterceptorConfig),
      agentApplySystemPromptInterception body
        (some { isEnabled := en, config := sc.toData }) =
        (body, false, false) := by
  intro body en sc
  exact agentApply_of_no_template rfl

/-- C3. For every enabled configuration whose `replacementPrompt` is a
non-empty string and every eligible main-agent request (structured
`system`, main-agent signature without sub-agent signature in
`system[0].text`, well-formed `system[1]`), the produced
`system[1].text` is `replacementPrompt` with every occurrence of the
`\x7b\x7benv_block\x7d\x7d` token replaced by the extracted env block
and then every occurrence of `\x7b\x7bgit_status_block\x7d\x7d`
replaced by the extracted git-status block. -/
theorem c3_template_substitution :
    ∀ (body : RequestBody) (rec : InterceptorRecord)
      (items : List SysItem) (first second : SystemMessage) (rp : String),
      rec.isEnabled = true →
      body.system = some (.blocks items) →
      (items[0]? : Option SysItem) = some (.msg first) →
      (containsStr first.text mainAgentSignature &&
        !containsStr first.text subAgentSignature) = true →
      (items[1]? : Option SysItem) = some (.msg second) →
      rec.config.replacementPrompt = some rp →
      ¬(rp = "") →
      ∃ out, applySystemPromptInterceptionBody body (some rec) = some out ∧
        ∃ outItems, out.system = some (.blocks outItems) ∧
          (outItems[1]? : Option SysItem) = some (.msg
            { second with text := newPromptOf rp second.text }) := by
  intro body rec items first second rp hen hsys h0 hguard h1 hrp hrpne
  refine ⟨interceptTransform body items second rp rec.config.toolsEnabled,
    interceptBody_construct hen hsys h0 hguard h1 hrp hrpne, ?_⟩
  refine ⟨items.set 1
    (.msg { second with text := newPromptOf rp second.text }), ?_, ?_⟩
  · unfold interceptTransform
    dsimp only
    split <;> rfl
  · exact getq_set_self h1

/-- C3 (witness). Scenario B: enabled config, main-agent signature in
`system[0].text`, one `<env>X</env>` block in `system[1].text`,
template `"Hi.\n\x7b\x7benv_block\x7d\x7d"`; the rewritten
`system[1].text` is the template with the env block substituted. -/
theorem c3_template_substitution_witness :
    ∃ out, applySystemPromptInterceptionBody bodyB (some recB) = some out ∧
      ∃ outItems, out.system = some (.blocks outItems) ∧
        (outItems[1]? : Option SysItem) = some (.msg
          { secondB with
              text := newPromptOf "Hi.\n\x7b\x7benv_block\x7d\x7d" secondB.text }) :=
  c3_template_substitution bodyB recB itemsB mainFirstBlock secondB
    "Hi.\n\x7b\x7benv_block\x7d\x7d" rfl rfl rfl (by decide) rfl rfl
    (by decide)

/-- C4. With an enabled configuration and a structured `system` array,
the System-Prompt Interceptor rewrites the request only when
`system[0].text` contains the main-agent signature and not the
sub-agent signature: whenever this condition fails the interceptor
returns the unchanged signal, and conversely every modified result
comes from a body satisfying the condition. -/
theorem c4_sub_agent_guard :
    (∀ (body : RequestBody) (rec : InterceptorRecord)
       (items : List SysItem),
       rec.isEnabled = true →
       body.system = some (.blocks items) →
       mainAgentOnly items = false →
       applySystemPromptInterceptionBody body (some rec) = none) ∧
    (∀ (body : RequestBody) (rec? : Option InterceptorRecord)
       (out : RequestBody),
       applySystemPromptInterceptionBody body rec? = some out →
       ∃ items, body.system = some (.blocks items) ∧
         mainAgentOnly items = true) := by
  constructor
  · intro body rec items hen hsys hguard
    cases h : applySystemPromptInterceptionBody body (some rec) with
    | none => rfl
    | some out =>
        obtain ⟨rec1, items1, first, second, rp, hrec, -, hsys1, h0, hg, -, -, -, -⟩ :=
          interceptBody_some_inv h
        rw [hsys] at hsys1
        obtain rfl : items = items1 := by
          simpa using hsys1
        simp only [mainAgentOnly, h0, hg] at hguard
        exact absurd hguard (by simp)
  · intro body rec? out h
    obtain ⟨rec1, items1, first, second, rp, hrec, -, hsys1, h0, hg, -, -, -, -⟩ :=
      interceptBody_some_inv h
    refine ⟨items1, hsys1, ?_⟩
    simp only [mainAgentOnly, h0]
    exact hg

/-- C4 (witness). A session whose first system block carries the
sub-agent signature is left unchanged by the enabled interceptor. -/
theorem c4_sub_agent_guard_witness :
    applySystemPromptInterceptionBody bodySub (some recB) = none :=
  c4_sub_agent_guard.1 bodySub recB itemsSub rfl rfl (by decide)

/-- C5 (counterexample). When the stored per-agent preference exists but
its model is the empty string, the code falls back to the agent's own
default model (JavaScript `||`), not to the preference's model as the
claimed `??` resolution would: the applied model is `"default-model"`,
not `""`. -/
theorem c5_empty_preference_counterexample :
    prefEmpty agentE.id = some "" ∧
    (interceptAndModifyRequest (some (.valid bodyE)) [agentE] prefEmpty
      none).agentUsed = some "AgentE" ∧
    (interceptAndModifyRequest (some (.valid bodyE)) [agentE] prefEmpty
      none).appliedModel = some "default-model" ∧
    ¬(("default-model" : String) = "") := by
  refine ⟨rfl, by decide, by decide, by decide⟩

/-- C5 (amended). For every request in which an agent is matched, the
applied model is `resolvePreferredModel`, i.e. the stored preference's
model when present and non-empty, else the agent's own default
(`preference?.model || agent.model`); and when this differs from the
original model the returned body's model field is set to it. -/
theorem c5_model_resolution :
    ∀ (buf : Buffer) (body : RequestBody) (agents : List Agent)
      (pref : String → Option String) (rec? : Option InterceptorRecord)
      (agent : Agent) (sp : String),
      decodeBuffer buf = some body →
      extractSystemPrompt body = some sp →
      ¬(sp = "") →
      agents.find? (fun a => containsStr sp (trimStr a.systemPrompt)) =
        some agent →
      (interceptAndModifyRequest (some buf) agents pref rec?).agentUsed =
        some agent.id ∧
      (interceptAndModifyRequest (some buf) agents pref rec?).appliedModel =
        some (resolvePreferredModel (pref agent.id) agent) ∧
      (¬(some (resolvePreferredModel (pref agent.id) agent) =
          originalModelOf body) →
        ∃ outBody,
          (interceptAndModifyRequest (some buf) agents pref rec?).modifiedBody =
            some (.valid outBody) ∧
          outBody.model = some (resolvePreferredModel (pref agent.id) agent)) := by
  intro buf body agents pref rec? agent sp hdec hsp hspne hfind
  simp only [interceptAndModifyRequest, hdec, hsp, if_neg hspne, hfind]
  split
  next heq =>
      refine ⟨by split <;> rfl, ?_, fun hne => absurd heq hne⟩
      rw [← heq]
      split <;> rfl
  next hne =>
      refine ⟨rfl, rfl, fun _ => ?_⟩
      refine ⟨(agentApplySystemPromptInterception
        { body with model := some (resolvePreferredModel (pref agent.id) agent) }
        rec?).1, rfl, ?_⟩
      rw [agentApply_model_eq]

/-- C5 (witness). Scenario D: the system prompt contains `agent42`'s
stored signature, the preference lookup returns `fast-v2`, and the
original model was `base-v1`: the agent used is `Agent42` and the
applied model is `fast-v2`. -/
theorem c5_model_resolution_witness :
    (interceptAndModifyRequest (some (.valid bodyD)) [agent42] pref42
      none).agentUsed = some "Agent42" ∧
    (interceptAndModifyRequest (some (.valid bodyD)) [agent42] pref42
      none).appliedModel = some "fast-v2" := by
  have h := c5_model_resolution (.valid bodyD) bodyD [agent42] pref42 none
    agent42 "prefix SIG42 suffix" rfl (by decide) (by decide) (by decide)
  exact ⟨h.1, h.2.1⟩

/-- C6 (counterexample). With two user messages of which only the
second carries both `Contents of` and `CLAUDE.md`, the code collects
nothing (it inspects only the first user message), while the claimed
description of the combined system prompt collects the second user
message's text. -/
theorem c6_first_user_counterexample :
    extractSystemPrompt body6 = none ∧
    extractSystemPromptClaimed body6 =
      some "Contents of /a/CLAUDE.md is here" := by
  constructor <;> decide

/-- C6 (amended). The combined system-prompt text is the blank-line
join of, in order: the root-level `system` content, the content of the
first message with role `"system"`, and the content of the first
message with role `"user"` when (and only when) that text contains both
`Contents of` and `CLAUDE.md`; messages after the first of each role
are never inspected. `none` is returned when nothing was collected. -/
theorem c6_combined_prompt_first_match :
    ∀ body : RequestBody,
      extractSystemPrompt body =
        match rootSystemPart body ++ firstSystemMessagePart body.messages ++
            firstUserMessagePart body.messages with
        | [] => none
        | parts => some (joinWith "\n\n" parts) := by
  intro body
  obtain ⟨msgs, model, sys, tools⟩ := body
  simp only [extractSystemPrompt, rootSystemPart, firstSystemMessagePart,
    firstUserMessagePart]
  cases msgs with
  | none => simp
  | some ms => simp only [List.append_assoc]

/-- C7 (counterexample). An eligible main-agent request whose
`system[1].text` already equals the replacement prompt, with no tools:
nothing changes — the output body equals the input body and no tools
were removed — yet the interceptor does not return the unchanged
signal; it returns a re-encoded buffer. -/
theorem c7_unchanged_reencode_counterexample :
    applySystemPromptInterceptionBody body7 (some rec7) = some body7 ∧
    body7.tools = none := by
  constructor <;> decide

/-- C7 (amended). The standalone interceptor returns a re-encoded
buffer if and only if every guard passes (`standaloneEligible`): once
the configuration is enabled and the request is an eligible main-agent
request with a valid non-empty `replacementPrompt`, it always
re-encodes, even when the rewritten prompt text is identical to the
original and no tools are removed; it returns the unchanged signal
exactly when some guard fails. -/
theorem c7_reencode_iff_eligible :
    ∀ (body : RequestBody) (rec? : Option InterceptorRecord),
      (applySystemPromptInterceptionBody body rec?).isSome =
        standaloneEligible body rec? := by
  intro body rec?
  cases h : applySystemPromptInterceptionBody body rec? with
  | some out =>
      obtain ⟨rec, items, first, second, rp, hrec, hen, hsys, h0, hg, h1, hrp,
        hrpne, -⟩ := interceptBody_some_inv h
      subst hrec
      simp only [standaloneEligible, hen, hsys, h0, hg, h1, hrp, Option.isSome]
      simp [hrpne]
  | none =>
      simp only [Option.isSome_none]
      symm
      rw [Bool.eq_false_iff]
      intro he
      rcases rec? with - | rec
      · simp [standaloneEligible] at he
      rcases hsys : body.system with - | sf
      · simp [standaloneEligible, hsys] at he
      rcases sf with s | items
      · simp [standaloneEligible, hsys] at he
      rcases hen : rec.isEnabled with - | -
      · simp [standaloneEligible, hsys, hen] at he
      rcases h0 : (items[0]? : Option SysItem) with - | it0
      · simp [standaloneEligible, hsys, hen, h0] at he
      rcases it0 with m0 | r0
      swap
      · simp [standaloneEligible, hsys, hen, h0] at he
      rcases h1 : (items[1]? : Option SysItem) with - | it1
      · simp [standaloneEligible, hsys, hen, h0, h1] at he
      rcases it1 with m1 | r1
      swap
      · simp [standaloneEligible, hsys, hen, h0, h1] at he
      rcases hrp : rec.config.replacementPrompt with - | rp
      · simp [standaloneEligible, hsys, hen, h0, h1, hrp] at he
      simp only [standaloneEligible, hsys, hen, h0, h1, hrp, Bool.true_and,
        Bool.and_true, Bool.and_eq_true, Bool.not_eq_eq_eq_not, Bool.not_true,
        decide_eq_false_iff_not] at he
      have hconstruct := interceptBody_construct hen hsys h0
        (by simp [he.1.1, he.1.2]) h1 hrp he.2
      rw [hconstruct] at h
      exact absurd h (by simp)

/-- C8. For every buffer whose bytes are not valid JSON (the inputs on
which the Agent Interceptor stage raises internally), the top-level
catch of `interceptAndModifyRequest` returns the original, unmodified
input buffer with `agentUsed`, `originalModel` and `appliedModel` all
null; no exception reaches the caller (the function is total and
returns this value). -/
theorem c8_parse_failure_degrades :
    ∀ (s : String) (agents : List Agent) (pref : String → Option String)
      (rec? : Option InterceptorRecord),
      interceptAndModifyRequest (some (.invalid s)) agents pref rec? =
        { modifiedBody := some (.invalid s), agentUsed := none,
          originalModel := none, appliedModel := none,
          systemPromptModified := none, toolsRemoved := none } := by
  intro s agents pref rec?
  rfl

/-- C9. A deferred last-seen write (`last_seen_system_prompt` via
`_updateLastSeenPrompt`, `last_seen_tools` via `_updateLastSeenTools`)
with new value `v` leaves the store untouched and does not invoke
`setSystemKV` when the stored value equals `v`, and otherwise sets the
key to `v`. -/
theorem c9_last_seen_no_op_writes :
    ∀ (kv : List (String × String)) (v : String) (tools : List Tool),
      (getSystemKV kv "last_seen_system_prompt" = some v →
        updateLastSeenPrompt v kv = ⟨kv, false⟩) ∧
      (¬(getSystemKV kv "last_seen_system_prompt" = some v) →
        updateLastSeenPrompt v kv =
          ⟨setSystemKV kv "last_seen_system_prompt" v, true⟩) ∧
      (getSystemKV kv "last_seen_tools" = some (toolsJson tools) →
        updateLastSeenTools tools kv = ⟨kv, false⟩) ∧
      (¬(getSystemKV kv "last_seen_tools" = some (toolsJson tools)) →
        updateLastSeenTools tools kv =
          ⟨setSystemKV kv "last_seen_tools" (toolsJson tools), true⟩) := by
  intro kv v tools
  refine ⟨fun h => ?_, fun h => ?_, fun h => ?_, fun h => ?_⟩
  · unfold updateLastSeenPrompt
    rw [h]
    simp
  · unfold updateLastSeenPrompt
    rw [if_pos]
    simp only [Bool.not_eq_eq_eq_not, Bool.not_true, decide_eq_false_iff_not]
    exact fun he => h he.symm
  · unfold updateLastSeenTools
    rw [h]
    simp
  · unfold updateLastSeenTools
    rw [if_pos]
    simp only [Bool.not_eq_eq_eq_not, Bool.not_true, decide_eq_false_iff_not]
    exact fun he => h he.symm

/-- C9 (witness). Writing `"p"` into an empty store sets the key, and a
repeated write of the same value leaves the store unchanged without
invoking `setSystemKV`. -/
theorem c9_last_seen_no_op_writes_witness :
    updateLastSeenPrompt "p" [] =
      ⟨[("last_seen_system_prompt", "p")], true⟩ ∧
    updateLastSeenPrompt "p" [("last_seen_system_prompt", "p")] =
      ⟨[("last_seen_system_prompt", "p")], false⟩ :=
  ⟨(c9_last_seen_no_op_writes [] "p" []).2.1 (by decide),
   (c9_last_seen_no_op_writes [("last_seen_system_prompt", "p")] "p"
     []).1 (by decide)⟩

/-- C10. Whenever the standalone System-Prompt Interceptor returns a
modified body, that body differs from the input only in
`system[1].text` and in the possible removal of the `tools` field: the
`model` field, the `messages` array, the system array's length, every
system block other than the second, and the second block's `type` and
`cache_control` are preserved. -/
theorem c10_frame :
    ∀ (body : RequestBody) (rec? : Option InterceptorRecord)
      (out : RequestBody),
      applySystemPromptInterceptionBody body rec? = some out →
      out.model = body.model ∧
      out.messages = body.messages ∧
      (out.tools = body.tools ∨ out.tools = none) ∧
      ∃ items outItems,
        body.system = some (.blocks items) ∧
        out.system = some (.blocks outItems) ∧
        outItems.length = items.length ∧
        (∀ i, ¬(i = 1) →
          (outItems[i]? : Option SysItem) = (items[i]? : Option SysItem)) ∧
        (∀ m, (items[1]? : Option SysItem) = some (.msg m) →
          ∃ t, (outItems[1]? : Option SysItem) =
            some (.msg { m with text := t })) := by
  intro body rec? out h
  obtain ⟨rec, items, first, second, rp, hrec, hen, hsys, h0, hg, h1, hrp,
    hrpne, hout⟩ := interceptBody_some_inv h
  subst hout
  unfold interceptTransform
  dsimp only
  refine ⟨by split <;> rfl, by split <;> rfl, ?_, ?_⟩
  · split
    · right; rfl
    · left; rfl
  · refine ⟨items,
      items.set 1 (.msg { second with text := newPromptOf rp second.text }),
      hsys, by split <;> rfl, List.length_set .., ?_, ?_⟩
    · intro i hi
      exact List.getElem?_set_ne (fun he => hi he.symm)
    · intro m hm
      rw [h1] at hm
      obtain rfl : second = m := by
        simpa using hm
      exact ⟨newPromptOf rp second.text, getq_set_self h1⟩

/-- C10 (witness). The Scenario B rewrite changes only the second
system block's text: model, messages, the first block and the tools
field of the output coincide with the input. -/
theorem c10_frame_witness :
    outB.model = bodyB.model ∧
    outB.messages = bodyB.messages ∧
    (outB.tools = bodyB.tools ∨ outB.tools = none) ∧
    ∃ items outItems,
      bodyB.system = some (.blocks items) ∧
      outB.system = some (.blocks outItems) ∧
      outItems.length = items.length ∧
      (∀ i, ¬(i = 1) →
        (outItems[i]? : Option SysItem) = (items[i]? : Option SysItem)) ∧
      (∀ m, (items[1]? : Option SysItem) = some (.msg m) →
        ∃ t, (outItems[1]? : Option SysItem) =
          some (.msg { m with text := t })) :=
  c10_frame bodyB (some recB) outB (by decide)
